import Mathlib

/-!
Shallow embedding of `src/bodies.rs` of the specs_nphysics repository: the
`PhysicsBody` component, its builder, the `Position` pose contract with its
`SimplePosition` implementation, and the push/pull synchronisation functions
against an nphysics `RigidBody`.

The scalar parameter `N : RealField` of the Rust code is embedded as `Rat`
(an exact ordered field standing for the numeric carrier; the synchronisation
layer performs only copies and componentwise additions, so its behaviour is
scalar-generic). Rust's mutable-reference style is embedded as explicit state
passing: a method `fn f(&mut self, ...) -> &mut Self` becomes a Lean function
returning the updated value.

The external collaborators (nalgebra value types, the nphysics `RigidBody`)
are not part of the repository; they are embedded as plain records, and every
mutator call on the engine body additionally records a `BodyEvent` in a trace
field, so that the order and content of the calls made by the repository's
code are observable in the model.
-/

/-- nalgebra `Vector3`-style triple (also used for `Point3` and the
per-axis `Vector3<bool>` of rotation locks). -/
structure V3 (α : Type) where
  x : α
  y : α
  z : α
deriving DecidableEq

instance [Add α] : Add (V3 α) where
  add a b := ⟨a.x + b.x, a.y + b.y, a.z + b.z⟩

instance [Zero α] : Zero (V3 α) where
  zero := ⟨0, 0, 0⟩

theorem v3_add_def [Add α] (a b : V3 α) :
    a + b = ⟨a.x + b.x, a.y + b.y, a.z + b.z⟩ := rfl

theorem v3_zero_def [Zero α] : (0 : V3 α) = ⟨0, 0, 0⟩ := rfl

/-- nalgebra `Point3<N>`. -/
abbrev Point3 := V3 Rat

/-- nalgebra `Point3::origin()`. -/
def Point3.origin : Point3 := ⟨0, 0, 0⟩

/-- nalgebra `Matrix3<N>`, as a row triple of column triples. -/
abbrev Matrix3 := V3 (V3 Rat)

/-- nalgebra `Matrix3::zeros()`. -/
def Matrix3.zeros : Matrix3 := ⟨⟨0, 0, 0⟩, ⟨0, 0, 0⟩, ⟨0, 0, 0⟩⟩

/-- nalgebra `UnitQuaternion<N>` (rotation component of an isometry),
kept abstract as its four coefficients. -/
structure UnitQuaternion where
  i : Rat
  j : Rat
  k : Rat
  w : Rat
deriving DecidableEq

/-- The identity rotation. -/
def UnitQuaternion.identity : UnitQuaternion := ⟨0, 0, 0, 1⟩

/-- nalgebra `Isometry3<N>`: a rotation plus a translation. -/
structure Isometry3 where
  rotation : UnitQuaternion
  translation : V3 Rat
deriving DecidableEq

/-- The identity isometry. -/
def Isometry3.identity : Isometry3 := ⟨UnitQuaternion.identity, 0⟩

/-- nphysics `Velocity3<N>`: linear and angular velocity. -/
structure Velocity3 where
  linear : V3 Rat
  angular : V3 Rat
deriving DecidableEq

/-- nphysics `Velocity3::zero()`. -/
def Velocity3.zero : Velocity3 := ⟨0, 0⟩

/-- nphysics `Force3<N>`: a linear force and an angular torque. -/
structure Force3 where
  linear : V3 Rat
  angular : V3 Rat
deriving DecidableEq

/-- nphysics `Force3::zero()`. -/
def Force3.zero : Force3 := ⟨0, 0⟩

instance : Add Force3 where
  add a b := ⟨a.linear + b.linear, a.angular + b.angular⟩

instance : Zero Force3 where
  zero := Force3.zero

theorem force3_add_def (a b : Force3) :
    a + b = ⟨a.linear + b.linear, a.angular + b.angular⟩ := rfl

theorem force3_zero_eq : (0 : Force3) = Force3.zero := rfl

theorem v3_add_assoc (a b c : V3 Rat) : a + b + c = a + (b + c) := by
  simp only [v3_add_def, V3.mk.injEq]
  refine ⟨?_, ?_, ?_⟩ <;> ring

theorem v3_add_zero (a : V3 Rat) : a + 0 = a := by
  simp only [v3_zero_def, v3_add_def, add_zero]

theorem force3_add_assoc (a b c : Force3) : a + b + c = a + (b + c) := by
  simp only [force3_add_def, Force3.mk.injEq]
  exact ⟨v3_add_assoc .., v3_add_assoc ..⟩

theorem force3_add_zero (a : Force3) : a + 0 = a := by
  simp only [force3_zero_eq, Force3.zero, force3_add_def, v3_add_zero]

/-- nphysics `BodyStatus`. -/
inductive BodyStatus where
  | Disabled
  | Static
  | Dynamic
  | Kinematic
deriving DecidableEq

/-- nphysics `ForceType`. -/
inductive ForceType where
  | Force
  | Impulse
  | AccelerationChange
  | VelocityChange
deriving DecidableEq

/-- nphysics `DefaultBodyHandle`, an opaque engine-issued identifier. -/
abbrev DefaultBodyHandle := Nat

/-- `SimplePosition<N>(pub Isometry3<N>)` from the `util` module; `val` is the
tuple field `.0`. -/
structure SimplePosition where
  val : Isometry3
deriving DecidableEq

/-- `Position::isometry` for `SimplePosition`: `&self.0`. -/
def SimplePosition.isometry (p : SimplePosition) : Isometry3 := p.val

/-- `Position::set_isometry` for `SimplePosition`: assigns `self.0.rotation`
and `self.0.translation` from the argument and returns `self`. -/
def SimplePosition.set_isometry (p : SimplePosition) (isometry : Isometry3) :
    SimplePosition :=
  { p with
    val := { p.val with
             rotation := isometry.rotation
             translation := isometry.translation } }

/-- The `PhysicsBody` component. -/
structure PhysicsBody where
  handle : Option DefaultBodyHandle
  gravity_enabled : Bool
  body_status : BodyStatus
  velocity : Velocity3
  angular_inertia : Matrix3
  mass : Rat
  local_center_of_mass : Point3
  rotations_kinematic : V3 Bool
  external_forces : Force3
deriving DecidableEq

/-- `PhysicsBody::check_external_force`: returns `&self.external_forces`. -/
def PhysicsBody.check_external_force (b : PhysicsBody) : Force3 :=
  b.external_forces

/-- `PhysicsBody::apply_external_force`: `self.external_forces += *force`. -/
def PhysicsBody.apply_external_force (b : PhysicsBody) (force : Force3) :
    PhysicsBody :=
  { b with external_forces := b.external_forces + force }

/-- `PhysicsBody::drain_external_force`: reads the accumulator, resets it to
`Force3::zero()`, and returns the read value (paired with the updated self). -/
def PhysicsBody.drain_external_force (b : PhysicsBody) : Force3 × PhysicsBody :=
  (b.external_forces, { b with external_forces := Force3.zero })

/-- nphysics `RigidBodyDesc<N>`: the fields set by `to_rigid_body_desc` plus
the `new()` defaults the repository's code leaves untouched (`position`,
`kinematic_rotations`). -/
structure RigidBodyDesc where
  position : Isometry3
  gravity_enabled : Bool
  status : BodyStatus
  velocity : Velocity3
  angular_inertia : Matrix3
  mass : Rat
  local_center_of_mass : Point3
  kinematic_rotations : V3 Bool
deriving DecidableEq

/-- nphysics `RigidBodyDesc::new()` defaults. -/
def RigidBodyDesc.new : RigidBodyDesc where
  position := Isometry3.identity
  gravity_enabled := true
  status := BodyStatus.Dynamic
  velocity := Velocity3.zero
  angular_inertia := Matrix3.zeros
  mass := 0
  local_center_of_mass := Point3.origin
  kinematic_rotations := ⟨false, false, false⟩

/-- Fluent setter `RigidBodyDesc::gravity_enabled` (renamed with a `with_`
prefix because Lean reserves the field name for the projection). -/
def RigidBodyDesc.with_gravity_enabled (d : RigidBodyDesc) (v : Bool) :
    RigidBodyDesc :=
  { d with gravity_enabled := v }

/-- Fluent setter `RigidBodyDesc::status`. -/
def RigidBodyDesc.with_status (d : RigidBodyDesc) (s : BodyStatus) :
    RigidBodyDesc :=
  { d with status := s }

/-- Fluent setter `RigidBodyDesc::velocity`. -/
def RigidBodyDesc.with_velocity (d : RigidBodyDesc) (v : Velocity3) :
    RigidBodyDesc :=
  { d with velocity := v }

/-- Fluent setter `RigidBodyDesc::angular_inertia`. -/
def RigidBodyDesc.with_angular_inertia (d : RigidBodyDesc) (m : Matrix3) :
    RigidBodyDesc :=
  { d with angular_inertia := m }

/-- Fluent setter `RigidBodyDesc::mass`. -/
def RigidBodyDesc.with_mass (d : RigidBodyDesc) (m : Rat) : RigidBodyDesc :=
  { d with mass := m }

/-- Fluent setter `RigidBodyDesc::local_center_of_mass`. -/
def RigidBodyDesc.with_local_center_of_mass (d : RigidBodyDesc) (c : Point3) :
    RigidBodyDesc :=
  { d with local_center_of_mass := c }

/-- `PhysicsBody::to_rigid_body_desc`: builds a descriptor from the
component's values by chaining the fluent setters on `RigidBodyDesc::new()`.
Takes `&self`: it returns only the descriptor and cannot touch the body. -/
def PhysicsBody.to_rigid_body_desc (b : PhysicsBody) : RigidBodyDesc :=
  ((((((RigidBodyDesc.new.with_gravity_enabled
    b.gravity_enabled).with_status
    b.body_status).with_velocity
    b.velocity).with_angular_inertia
    b.angular_inertia).with_mass
    b.mass).with_local_center_of_mass
    b.local_center_of_mass)

/-- One observable mutator call on the engine body, in the order the
repository's code issues them. -/
inductive BodyEvent where
  | enableGravity (v : Bool)
  | setStatus (s : BodyStatus)
  | setVelocity (v : Velocity3)
  | setAngularInertia (m : Matrix3)
  | setMass (m : Rat)
  | setLocalCenterOfMass (c : Point3)
  | applyForce (part : Nat) (f : Force3) (ty : ForceType) (autoWake : Bool)
  | setRotationsKinematic (r : V3 Bool)
deriving DecidableEq

/-- nphysics `Inertia3<N>`: `linear` is the mass, `angular` the 3x3 tensor. -/
structure Inertia3 where
  linear : Rat
  angular : Matrix3
deriving DecidableEq

/-- The engine-side nphysics `RigidBody<N>`, embedded as the state the
repository's code reads and writes, plus an event trace recording every
mutator call (the engine's solver internals are outside the repository). -/
structure RigidBody where
  gravity_enabled : Bool
  status : BodyStatus
  velocity : Velocity3
  angular_inertia : Matrix3
  mass : Rat
  local_center_of_mass : Point3
  rotations_kinematic : V3 Bool
  events : List BodyEvent
deriving DecidableEq

/-- `RigidBody::enable_gravity`. -/
def RigidBody.enable_gravity (rb : RigidBody) (v : Bool) : RigidBody :=
  { rb with gravity_enabled := v
            events := rb.events ++ [BodyEvent.enableGravity v] }

/-- `RigidBody::set_status`. -/
def RigidBody.set_status (rb : RigidBody) (s : BodyStatus) : RigidBody :=
  { rb with status := s, events := rb.events ++ [BodyEvent.setStatus s] }

/-- `RigidBody::set_velocity`. -/
def RigidBody.set_velocity (rb : RigidBody) (v : Velocity3) : RigidBody :=
  { rb with velocity := v, events := rb.events ++ [BodyEvent.setVelocity v] }

/-- `RigidBody::set_angular_inertia`. -/
def RigidBody.set_angular_inertia (rb : RigidBody) (m : Matrix3) : RigidBody :=
  { rb with angular_inertia := m
            events := rb.events ++ [BodyEvent.setAngularInertia m] }

/-- `RigidBody::set_mass`. -/
def RigidBody.set_mass (rb : RigidBody) (m : Rat) : RigidBody :=
  { rb with mass := m, events := rb.events ++ [BodyEvent.setMass m] }

/-- `RigidBody::set_local_center_of_mass`. -/
def RigidBody.set_local_center_of_mass (rb : RigidBody) (c : Point3) :
    RigidBody :=
  { rb with local_center_of_mass := c
            events := rb.events ++ [BodyEvent.setLocalCenterOfMass c] }

/-- `RigidBody::apply_force(part_id, force, force_type, auto_wake_up)`: a
one-shot, non-persistent force submission for the current step; the model
records the submission in the trace. -/
def RigidBody.apply_force (rb : RigidBody) (part_id : Nat) (force : Force3)
    (force_type : ForceType) (auto_wake_up : Bool) : RigidBody :=
  { rb with
    events := rb.events
      ++ [BodyEvent.applyForce part_id force force_type auto_wake_up] }

/-- `RigidBody::set_rotations_kinematic`. -/
def RigidBody.set_rotations_kinematic (rb : RigidBody) (r : V3 Bool) :
    RigidBody :=
  { rb with rotations_kinematic := r
            events := rb.events ++ [BodyEvent.setRotationsKinematic r] }

/-- `RigidBody::local_inertia()`: reports the body's current mass (`linear`)
and angular inertia tensor (`angular`). -/
def RigidBody.local_inertia (rb : RigidBody) : Inertia3 :=
  ⟨rb.mass, rb.angular_inertia⟩

/-- `PhysicsBody::apply_to_physics_world` (push), line by line: overwrite the
engine body's gravity flag, status, velocity, angular inertia, mass and local
center of mass from the component, drain the force accumulator and submit the
drained value via `apply_force(0, _, ForceType::Force, true)`, then set the
per-axis rotation-kinematic flags. Returns the updated component and engine
body. -/
def PhysicsBody.apply_to_physics_world (b : PhysicsBody) (rigid_body : RigidBody) :
    PhysicsBody × RigidBody :=
  let rb1 := rigid_body.enable_gravity b.gravity_enabled
  let rb2 := rb1.set_status b.body_status
  let rb3 := rb2.set_velocity b.velocity
  let rb4 := rb3.set_angular_inertia b.angular_inertia
  let rb5 := rb4.set_mass b.mass
  let rb6 := rb5.set_local_center_of_mass b.local_center_of_mass
  let drained := b.drain_external_force
  let rb7 := rb6.apply_force 0 drained.1 ForceType.Force true
  let rb8 := rb7.set_rotations_kinematic drained.2.rotations_kinematic
  (drained.2, rb8)

/-- `PhysicsBody::update_from_physics_world` (pull): overwrite
`gravity_enabled`, `body_status` and `velocity` from the engine body, then
`angular_inertia` and `mass` from its `local_inertia()` report. -/
def PhysicsBody.update_from_physics_world (b : PhysicsBody)
    (rigid_body : RigidBody) : PhysicsBody :=
  let b1 := { b with gravity_enabled := rigid_body.gravity_enabled
                     body_status := rigid_body.status }
  let b2 := { b1 with velocity := rigid_body.velocity }
  let li := rigid_body.local_inertia
  { b2 with angular_inertia := li.angular, mass := li.linear }

/-- The `PhysicsBodyBuilder` struct. -/
structure PhysicsBodyBuilder where
  gravity_enabled : Bool
  body_status : BodyStatus
  velocity : Velocity3
  angular_inertia : Matrix3
  mass : Rat
  local_center_of_mass : Point3
  rotations_kinematic : V3 Bool
deriving DecidableEq

/-- Modelled from the spec: the external scalar conversion
`N::from_f32` used by the builder is library code (num-traits, for the
`RealField` instances `f32` and `f64`) absent from `src/`; for both instances
it is a total, exact widening conversion, so it is embedded as `some x`. -/
def from_f32 (x : Rat) : Option Rat := some x

/-- `From<BodyStatus> for PhysicsBodyBuilder`: the defaulted builder, with
`mass` set to `N::from_f32(1.2).unwrap()`. -/
def physicsBodyBuilderFrom (body_status : BodyStatus) : PhysicsBodyBuilder where
  gravity_enabled := false
  body_status := body_status
  velocity := Velocity3.zero
  angular_inertia := Matrix3.zeros
  mass := (from_f32 (1.2 : Rat)).get!
  local_center_of_mass := Point3.origin
  rotations_kinematic := ⟨false, false, false⟩

/-- Fluent setter `PhysicsBodyBuilder::gravity_enabled`. -/
def PhysicsBodyBuilder.with_gravity_enabled (bld : PhysicsBodyBuilder)
    (v : Bool) : PhysicsBodyBuilder :=
  { bld with gravity_enabled := v }

/-- Fluent setter `PhysicsBodyBuilder::velocity`. -/
def PhysicsBodyBuilder.with_velocity (bld : PhysicsBodyBuilder)
    (v : Velocity3) : PhysicsBodyBuilder :=
  { bld with velocity := v }

/-- Fluent setter `PhysicsBodyBuilder::angular_inertia`. -/
def PhysicsBodyBuilder.with_angular_inertia (bld : PhysicsBodyBuilder)
    (m : Matrix3) : PhysicsBodyBuilder :=
  { bld with angular_inertia := m }

/-- Fluent setter `PhysicsBodyBuilder::mass`. -/
def PhysicsBodyBuilder.with_mass (bld : PhysicsBodyBuilder) (m : Rat) :
    PhysicsBodyBuilder :=
  { bld with mass := m }

/-- Fluent setter `PhysicsBodyBuilder::local_center_of_mass`. -/
def PhysicsBodyBuilder.with_local_center_of_mass (bld : PhysicsBodyBuilder)
    (c : Point3) : PhysicsBodyBuilder :=
  { bld with local_center_of_mass := c }

/-- Fluent setter `PhysicsBodyBuilder::rotations_kinematic`. -/
def PhysicsBodyBuilder.with_rotations_kinematic (bld : PhysicsBodyBuilder)
    (r : V3 Bool) : PhysicsBodyBuilder :=
  { bld with rotations_kinematic := r }

/-- `PhysicsBodyBuilder::lock_rotations`: sets all three axes identically. -/
def PhysicsBodyBuilder.lock_rotations (bld : PhysicsBodyBuilder) (v : Bool) :
    PhysicsBodyBuilder :=
  { bld with rotations_kinematic := ⟨v, v, v⟩ }

/-- `PhysicsBodyBuilder::build`. -/
def PhysicsBodyBuilder.build (bld : PhysicsBodyBuilder) : PhysicsBody where
  handle := none
  gravity_enabled := bld.gravity_enabled
  body_status := bld.body_status
  velocity := bld.velocity
  angular_inertia := bld.angular_inertia
  mass := bld.mass
  local_center_of_mass := bld.local_center_of_mass
  rotations_kinematic := bld.rotations_kinematic
  external_forces := Force3.zero

/-- The forces the repository's code submitted to an engine body, in order,
each paired with its `ForceType` (`ForceType.Force` is the one-shot kind). -/
def RigidBody.submitted_forces (rb : RigidBody) : List (Force3 × ForceType) :=
  rb.events.filterMap fun e =>
    match e with
    | BodyEvent.applyForce _ f ty _ => some (f, ty)
    | _ => none

theorem v3_zero_add (a : V3 Rat) : 0 + a = a := by
  simp only [v3_zero_def, v3_add_def, zero_add]

theorem force3_zero_add (a : Force3) : Force3.zero + a = a := by
  simp only [Force3.zero, force3_add_def, v3_zero_add]

/-- Folding `apply_external_force` over a list of forces adds the list's
vector sum to the accumulator. -/
theorem external_forces_foldl (fs : List Force3) (b : PhysicsBody) :
    (fs.foldl (fun acc f => acc.apply_external_force f) b).external_forces
      = b.external_forces + fs.sum := by
  induction fs generalizing b with
  | nil => simp only [List.foldl_nil, List.sum_nil, force3_add_zero]
  | cons f fs ih =>
    rw [List.foldl_cons, ih, List.sum_cons]
    show b.external_forces + f + fs.sum = b.external_forces + (f + fs.sum)
    exact force3_add_assoc ..

/-- A push submits exactly one force to the engine body: the pre-push
accumulator, with the one-shot `ForceType.Force` kind. -/
theorem push_submitted (b : PhysicsBody) (rb : RigidBody) :
    ((b.apply_to_physics_world rb).2).submitted_forces
      = rb.submitted_forces ++ [(b.external_forces, ForceType.Force)] := by
  simp [PhysicsBody.apply_to_physics_world, RigidBody.enable_gravity,
    RigidBody.set_status, RigidBody.set_velocity, RigidBody.set_angular_inertia,
    RigidBody.set_mass, RigidBody.set_local_center_of_mass,
    RigidBody.apply_force, RigidBody.set_rotations_kinematic,
    PhysicsBody.drain_external_force, RigidBody.submitted_forces,
    List.filterMap_append]

/-- A push returns the component unchanged except for the force accumulator,
which is reset to zero. -/
theorem push_component_eq (b : PhysicsBody) (rb : RigidBody) :
    (b.apply_to_physics_world rb).1 = { b with external_forces := Force3.zero } :=
  rfl

/-- C3: for every body kind `k`, `PhysicsBodyBuilder::from(k).build()` yields
a component with gravity disabled, zero velocity, zero angular-inertia
tensor, mass 1.2, local center of mass at the origin, no rotation locks, no
handle, and a zero force accumulator. -/
theorem builder_defaults (k : BodyStatus) :
    (physicsBodyBuilderFrom k).build =
      { handle := none
        gravity_enabled := false
        body_status := k
        velocity := Velocity3.zero
        angular_inertia := Matrix3.zeros
        mass := (1.2 : Rat)
        local_center_of_mass := Point3.origin
        rotations_kinematic := ⟨false, false, false⟩
        external_forces := Force3.zero } := rfl

/-- C5: pull (`update_from_physics_world`) leaves `local_center_of_mass`,
`rotations_kinematic`, `handle` and `external_forces` unchanged, overwriting
only the five mirrored physical fields from the engine body; push
(`apply_to_physics_world`) leaves the component's `velocity`, `mass` and
`angular_inertia` unchanged, and the only component field it mutates is
`external_forces`, reset to zero. -/
theorem push_pull_field_partitioning (b : PhysicsBody) (rb : RigidBody) :
    ((b.update_from_physics_world rb).local_center_of_mass = b.local_center_of_mass
      ∧ (b.update_from_physics_world rb).rotations_kinematic = b.rotations_kinematic
      ∧ (b.update_from_physics_world rb).handle = b.handle
      ∧ (b.update_from_physics_world rb).external_forces = b.external_forces
      ∧ (b.update_from_physics_world rb).gravity_enabled = rb.gravity_enabled
      ∧ (b.update_from_physics_world rb).body_status = rb.status
      ∧ (b.update_from_physics_world rb).velocity = rb.velocity
      ∧ (b.update_from_physics_world rb).angular_inertia = rb.angular_inertia
      ∧ (b.update_from_physics_world rb).mass = rb.mass)
    ∧ ((b.apply_to_physics_world rb).1.velocity = b.velocity
      ∧ (b.apply_to_physics_world rb).1.mass = b.mass
      ∧ (b.apply_to_physics_world rb).1.angular_inertia = b.angular_inertia
      ∧ (b.apply_to_physics_world rb).1
          = { b with external_forces := Force3.zero }) :=
  ⟨⟨rfl, rfl, rfl, rfl, rfl, rfl, rfl, rfl, rfl⟩, rfl, rfl, rfl, rfl⟩

/-- C7: pulling twice in succession from the same unmodified engine body
yields the same component state as pulling once. -/
theorem idempotent_pull (b : PhysicsBody) (rb : RigidBody) :
    (b.update_from_physics_world rb).update_from_physics_world rb
      = b.update_from_physics_world rb := rfl

/-- C8: `apply_external_force` adds the given force to the accumulator
(vector sum of force and torque) and changes no other field;
`check_external_force` returns the current accumulator without consuming
it — peeking after an application sees the updated, un-reset value. -/
theorem force_accumulation_additivity (b : PhysicsBody) (f : Force3) :
    (b.apply_external_force f).external_forces = b.external_forces + f
    ∧ (b.apply_external_force f).handle = b.handle
    ∧ (b.apply_external_force f).gravity_enabled = b.gravity_enabled
    ∧ (b.apply_external_force f).body_status = b.body_status
    ∧ (b.apply_external_force f).velocity = b.velocity
    ∧ (b.apply_external_force f).angular_inertia = b.angular_inertia
    ∧ (b.apply_external_force f).mass = b.mass
    ∧ (b.apply_external_force f).local_center_of_mass = b.local_center_of_mass
    ∧ (b.apply_external_force f).rotations_kinematic = b.rotations_kinematic
    ∧ b.check_external_force = b.external_forces
    ∧ (b.apply_external_force f).check_external_force = b.external_forces + f :=
  ⟨rfl, rfl, rfl, rfl, rfl, rfl, rfl, rfl, rfl, rfl, rfl⟩

/-- C9: `SimplePosition::set_isometry(t)` copies exactly `t`'s rotation and
translation into the stored transform — the resulting value is the position
wrapping `t` itself, and the function returns that updated self. -/
theorem set_isometry_copies_pose (p : SimplePosition) (t : Isometry3) :
    p.set_isometry t = SimplePosition.mk t
    ∧ (p.set_isometry t).isometry.rotation = t.rotation
    ∧ (p.set_isometry t).isometry.translation = t.translation :=
  ⟨rfl, rfl, rfl⟩

/-- C10: the scalar conversion `N::from_f32(1.2)` used by
`PhysicsBodyBuilder::from` succeeds (returns `some`), so the `unwrap` never
panics and builder construction from a body kind is a total function whose
result carries the converted mass. -/
theorem builder_from_total (s : BodyStatus) :
    ∃ m : Rat, from_f32 (1.2 : Rat) = some m
      ∧ (physicsBodyBuilderFrom s).mass = m :=
  ⟨(1.2 : Rat), rfl, rfl⟩

/-- C4: a push issues its engine-body calls in exactly this order — the six
physical-parameter overwrites (gravity flag, status, velocity, angular
inertia, mass, local center of mass), then the drained accumulator submitted
via `apply_force`, then the per-axis rotation-kinematic flags. -/
theorem push_ordering (b : PhysicsBody) (rb : RigidBody) :
    ((b.apply_to_physics_world rb).2).events = rb.events ++
      [BodyEvent.enableGravity b.gravity_enabled,
       BodyEvent.setStatus b.body_status,
       BodyEvent.setVelocity b.velocity,
       BodyEvent.setAngularInertia b.angular_inertia,
       BodyEvent.setMass b.mass,
       BodyEvent.setLocalCenterOfMass b.local_center_of_mass,
       BodyEvent.applyForce 0 b.external_forces ForceType.Force true,
       BodyEvent.setRotationsKinematic b.rotations_kinematic] := by
  simp [PhysicsBody.apply_to_physics_world, RigidBody.enable_gravity,
    RigidBody.set_status, RigidBody.set_velocity,
    RigidBody.set_angular_inertia, RigidBody.set_mass,
    RigidBody.set_local_center_of_mass, RigidBody.apply_force,
    RigidBody.set_rotations_kinematic, PhysicsBody.drain_external_force]

/-- C1: starting from a drained accumulator, after any sequence of
`apply_external_force` calls a push submits exactly the vector sum of those
forces to the engine body as a one-shot (`ForceType.Force`) submission, and a
subsequent `check_external_force` returns the zero force. -/
theorem force_drain_exactness (b : PhysicsBody) (rb : RigidBody)
    (fs : List Force3) (h : b.external_forces = Force3.zero) :
    (((fs.foldl (fun acc f => acc.apply_external_force f) b).apply_to_physics_world
        rb).2).submitted_forces
      = rb.submitted_forces ++ [(fs.sum, ForceType.Force)]
    ∧ (((fs.foldl (fun acc f => acc.apply_external_force f) b).apply_to_physics_world
        rb).1).check_external_force = Force3.zero := by
  refine ⟨?_, rfl⟩
  rw [push_submitted, external_forces_foldl, h, force3_zero_add]

/-- C2: a push resets the component's accumulator to zero, and a second push
with no intervening `apply_external_force` submits the zero force — the force
accumulated before the first push reaches the engine exactly once. -/
theorem exactly_once_consumption (b : PhysicsBody) (rb : RigidBody) :
    ((b.apply_to_physics_world rb).1).external_forces = Force3.zero
    ∧ (((b.apply_to_physics_world rb).1.apply_to_physics_world
          (b.apply_to_physics_world rb).2).2).submitted_forces
        = rb.submitted_forces
          ++ [(b.external_forces, ForceType.Force), (Force3.zero, ForceType.Force)] := by
  refine ⟨rfl, ?_⟩
  rw [push_submitted, push_submitted]
  have hz : ((b.apply_to_physics_world rb).1).external_forces = Force3.zero := rfl
  rw [hz, List.append_assoc]
  rfl

/-- C6: the descriptor built by `to_rigid_body_desc` is a function of exactly
the six mirrored physical fields — two components agreeing on
`gravity_enabled`, `body_status`, `velocity`, `angular_inertia`, `mass` and
`local_center_of_mass` produce identical descriptors, whatever their
`external_forces`, `rotations_kinematic` and `handle`; the function takes the
component immutably and so never mutates it. -/
theorem descriptor_purity (b b' : PhysicsBody)
    (h1 : b.gravity_enabled = b'.gravity_enabled)
    (h2 : b.body_status = b'.body_status)
    (h3 : b.velocity = b'.velocity)
    (h4 : b.angular_inertia = b'.angular_inertia)
    (h5 : b.mass = b'.mass)
    (h6 : b.local_center_of_mass = b'.local_center_of_mass) :
    b.to_rigid_body_desc = b'.to_rigid_body_desc := by
  simp [PhysicsBody.to_rigid_body_desc, RigidBodyDesc.with_gravity_enabled,
    RigidBodyDesc.with_status, RigidBodyDesc.with_velocity,
    RigidBodyDesc.with_angular_inertia, RigidBodyDesc.with_mass,
    RigidBodyDesc.with_local_center_of_mass, RigidBodyDesc.new,
    h1, h2, h3, h4, h5, h6]

/-- A concrete dynamic body with a drained (zero) force accumulator. -/
def bodyW : PhysicsBody where
  handle := none
  gravity_enabled := true
  body_status := BodyStatus.Dynamic
  velocity := ⟨⟨1, 2, 3⟩, ⟨0, 0, 1⟩⟩
  angular_inertia := Matrix3.zeros
  mass := 2
  local_center_of_mass := ⟨0, 0, 0⟩
  rotations_kinematic := ⟨false, true, false⟩
  external_forces := Force3.zero

/-- `bodyW` with the three non-descriptor fields (`handle`,
`rotations_kinematic`, `external_forces`) changed. -/
def bodyW2 : PhysicsBody :=
  { bodyW with
    handle := some 7
    rotations_kinematic := ⟨true, false, true⟩
    external_forces := ⟨⟨3, 0, 0⟩, ⟨0, 1, 0⟩⟩ }

/-- A concrete engine body with an empty event trace. -/
def rigidW : RigidBody where
  gravity_enabled := true
  status := BodyStatus.Dynamic
  velocity := Velocity3.zero
  angular_inertia := Matrix3.zeros
  mass := 1
  local_center_of_mass := Point3.origin
  rotations_kinematic := ⟨false, false, false⟩
  events := []

/-- The two forces of the spec's scenario: (1,0,0) then (0,2,0). -/
def forcesW : List Force3 := [⟨⟨1, 0, 0⟩, ⟨0, 0, 0⟩⟩, ⟨⟨0, 2, 0⟩, ⟨0, 0, 0⟩⟩]

/-- Witness for C1 at the spec's scenario: the accumulator of `bodyW` is
zero, the forces (1,0,0) and (0,2,0) sum to (1,2,0), the push submits that
sum once, and the accumulator then reads zero. -/
theorem force_drain_exactness_witness :
    bodyW.external_forces = Force3.zero
    ∧ forcesW.sum = ⟨⟨1, 2, 0⟩, ⟨0, 0, 0⟩⟩
    ∧ ((((forcesW.foldl (fun acc f => acc.apply_external_force f)
            bodyW).apply_to_physics_world rigidW).2).submitted_forces
          = rigidW.submitted_forces ++ [(forcesW.sum, ForceType.Force)]
        ∧ (((forcesW.foldl (fun acc f => acc.apply_external_force f)
            bodyW).apply_to_physics_world rigidW).1).check_external_force
          = Force3.zero) :=
  ⟨rfl,
    by simp [forcesW, List.sum_cons, List.sum_nil, force3_add_zero,
      force3_add_def, v3_add_def, v3_zero_def, force3_zero_eq, Force3.zero],
    force_drain_exactness bodyW rigidW forcesW rfl⟩

/-- Witness for C6: `bodyW` and `bodyW2` agree on the six descriptor fields,
differ as components, and yield identical descriptors. -/
theorem descriptor_purity_witness :
    bodyW.gravity_enabled = bodyW2.gravity_enabled
    ∧ bodyW.body_status = bodyW2.body_status
    ∧ bodyW.velocity = bodyW2.velocity
    ∧ bodyW.angular_inertia = bodyW2.angular_inertia
    ∧ bodyW.mass = bodyW2.mass
    ∧ bodyW.local_center_of_mass = bodyW2.local_center_of_mass
    ∧ bodyW ≠ bodyW2
    ∧ bodyW.to_rigid_body_desc = bodyW2.to_rigid_body_desc :=
  ⟨rfl, rfl, rfl, rfl, rfl, rfl, by decide,
    descriptor_purity bodyW bodyW2 rfl rfl rfl rfl rfl rfl⟩
